import Mathlib

/-!
Shallow embedding of the core of src/sonos_volume_sync.py.

Modelling conventions:
* Python floats are modelled as rationals.
* A Sonos device object (SoCo) is modelled by Dev: discovery metadata
  (player_name, is_coordinator, group coordinator) plus a control block
  DevControl holding the device volume and flags saying whether a given
  network access raises an exception.  A caught exception therefore shows
  up as the corresponding Fails flag being true; a try/except that turns a
  failure into a fallback value is modelled by branching on that flag.
* The module-level mutable globals of the script are gathered in SyncState
  (current_sonos_volume, _last_volume_value, _volume_steps, _volume_timer,
  _sonos_device, _last_mute_state, _last_key_press_ms, g_last_action, and
  the Windows master volume the script manipulates through set_volume).
* The module-level configuration constants are gathered in Config, whose
  default field values are the source defaults (PINNED_VOLUME = 33,
  VOLUME_STEP = 1.0, USE_EXPONENTIAL = True, EXPONENTIAL_FACTOR = 10.0,
  DEBOUNCE_TIME_MS = 0.0).
* Environment inputs (the SoCo discovery and connection results, whether
  the local Core-Audio set_volume call succeeds, the monotonic clock
  reading) are explicit arguments.
* Functions that call set_volume or set_playback_mute additionally return
  the list of arguments of those calls, so that re-pinning of the local
  volume and mute transitions can be stated precisely.
-/

namespace SonosVolumeSync

/-- Control surface of one Sonos device: its volume (an integer percent held
by the device) and flags saying which operations on it raise. -/
structure DevControl where
  vol : ℤ
  readFails : Bool := false
  writeFails : Bool := false
  transportState : String := ""
  channel : String := ""
  stateReadFails : Bool := false
deriving DecidableEq

/-- A SoCo device object: discovery metadata plus its control surface.
groupCoord models dev.group.coordinator; none means that access raises. -/
inductive Dev where
  | mk (playerName : String) (isCoord : Bool) (groupCoord : Option Dev) (ctl : DevControl)

/-- The player_name attribute. -/
def Dev.playerName : Dev → String
  | .mk n _ _ _ => n

/-- The is_coordinator attribute. -/
def Dev.isCoord : Dev → Bool
  | .mk _ c _ _ => c

/-- The group.coordinator access; none models a raised exception. -/
def Dev.groupCoord : Dev → Option Dev
  | .mk _ _ g _ => g

/-- The control surface of the device. -/
def Dev.ctl : Dev → DevControl
  | .mk _ _ _ k => k

/-- Assigning device.volume: the device now holds the new integer percent. -/
def Dev.setVol : Dev → ℤ → Dev
  | .mk n c g k, v => .mk n c g { k with vol := v }

/-- The module-level mutable globals of sonos_volume_sync.py, with their
initial values as defaults (current_sonos_volume = 0.1,
_last_volume_value = 0.0, _volume_steps = 0.0, _volume_timer = None,
_sonos_device = None, _last_mute_state = None, _last_key_press_ms = 0.0). -/
structure SyncState where
  currentSonosVolume : ℚ := 1/10
  lastVolumeValue : ℚ := 0
  volumeSteps : ℚ := 0
  timerPending : Bool := false
  sonosDevice : Option Dev := none
  lastMuteState : Option Bool := none
  lastKeyPressMs : ℚ := 0
  lastAction : String := ""
  localVolume : ℤ := 0

/-- The configuration constants of the script, defaults as in the source. -/
structure Config where
  pinnedVolume : ℤ := 33
  volumeStep : ℚ := 1
  useExponential : Bool := true
  exponentialFactor : ℚ := 10
  debounceMs : ℚ := 0

/-- Environment for get_sonos_device: the configured address and name and
the outcomes of SoCo(SONOS_IP) and soco.discover().  ipDevice = none means
constructing/contacting SoCo(SONOS_IP) raises; discovered = none means
soco.discover() raises or returns a falsy result. -/
structure ResolutionEnv where
  sonosIP : String := ""
  sonosName : String := "Sonos Five"
  ipDevice : Option Dev := none
  discovered : Option (List Dev) := none

/-- The Python builtin round to the nearest integer with ties to even, as used in
int(round(x)) on a nonnegative-or-negative rational. -/
def pyRound (q : ℚ) : ℤ :=
  let f := ⌊q⌋
  let frac := q - (f : ℚ)
  if frac < 1/2 then f
  else if 1/2 < frac then f + 1
  else if f % 2 = 0 then f else f + 1

/-- The Python str.lower method on the ASCII range, as applied to device names. -/
def pyLower (s : String) : String := String.mk (s.data.map Char.toLower)

/-- The discovered devices whose player_name equals the configured name up
to case (the matched_devices list of get_sonos_device). -/
def matchedDevs (name : String) (devs : List Dev) : List Dev :=
  devs.filter fun d => pyLower d.playerName == pyLower name

/-- get_sonos_device (source lines 589-661): return the cached handle if
set; otherwise resolve by fixed IP (probe with one volume read) or by
discovery filtered on a case-insensitive exact name match, preferring a
matched coordinator, else the group coordinator of the first match, falling
back to the first match itself when that access raises.  Successful
resolution caches the handle; every failure path returns none and leaves
the state unchanged. -/
def get_sonos_device (env : ResolutionEnv) (s : SyncState) : Option Dev × SyncState :=
  match s.sonosDevice with
  | some d => (some d, s)
  | none =>
    if env.sonosIP ≠ "" then
      match env.ipDevice with
      | some d =>
        if d.ctl.readFails then (none, s)
        else (some d, { s with sonosDevice := some d })
      | none => (none, s)
    else if env.sonosName ≠ "" then
      match env.discovered with
      | none => (none, s)
      | some devs =>
        if devs.isEmpty then (none, s)
        else if (matchedDevs env.sonosName devs).isEmpty then (none, s)
        else
          match (matchedDevs env.sonosName devs).find? (fun d => d.isCoord) with
          | some target => (some target, { s with sonosDevice := some target })
          | none =>
            match (matchedDevs env.sonosName devs).head? with
            | none => (none, s)
            | some first =>
              (some (first.groupCoord.getD first),
               { s with sonosDevice := some (first.groupCoord.getD first) })
    else (none, s)

/-- get_sonos_volume (source lines 664-687): read the device volume, clamp
the fraction to the unit interval and cache it; on any failure return the
last known value and change nothing. -/
def get_sonos_volume (env : ResolutionEnv) (s : SyncState) : ℚ × SyncState :=
  match get_sonos_device env s with
  | (none, s1) => (s1.lastVolumeValue, s1)
  | (some d, s1) =>
    if d.ctl.readFails then (s1.lastVolumeValue, s1)
    else
      let volume := max 0 (min 1 ((d.ctl.vol : ℚ) / 100))
      (volume, { s1 with lastVolumeValue := volume, currentSonosVolume := volume })

/-- send_sonos_command (source lines 698-738): read the device volume, add
or subtract max(0.1, steps) clamped to [0, 100], write the rounded percent
back, cache the fraction; report False on unreachable device, unknown
service, or a raised read/write. -/
def send_sonos_command (env : ResolutionEnv) (service : String) (steps : ℚ)
    (s : SyncState) : Bool × SyncState :=
  match get_sonos_device env s with
  | (none, s1) => (false, s1)
  | (some d, s1) =>
    if d.ctl.readFails then (false, s1)
    else
      let step_size := max (1/10) steps
      let current_percent : ℚ := (d.ctl.vol : ℚ)
      let newPercent? : Option ℚ :=
        if service = "volume_up" then some (min 100 (current_percent + step_size))
        else if service = "volume_down" then some (max 0 (current_percent - step_size))
        else none
      match newPercent? with
      | none => (false, s1)
      | some new_percent =>
        if d.ctl.writeFails then (false, s1)
        else
          let volume := new_percent / 100
          (true, { s1 with sonosDevice := some (d.setVol (pyRound new_percent)),
                           currentSonosVolume := volume,
                           lastVolumeValue := volume })

/-- handle_external_volume_change (source lines 471-511): map a Windows
volume delta (in percent points) to a relative Sonos change, clamped to
the unit interval, and in the finally block always call
set_volume(PINNED_VOLUME).  setVolOk says whether that local call
succeeds; the returned list records the arguments of set_volume calls. -/
def handle_external_volume_change (cfg : Config) (env : ResolutionEnv) (setVolOk : Bool)
    (delta_percent : ℤ) (s : SyncState) : SyncState × List ℤ :=
  if delta_percent = 0 then (s, [])
  else
    let repin : SyncState → SyncState × List ℤ := fun st =>
      (if setVolOk then { st with localVolume := cfg.pinnedVolume } else st,
       [cfg.pinnedVolume])
    match get_sonos_volume env s with
    | (current_volume, s1) =>
      let delta_fraction := (delta_percent : ℚ) / 100
      let new_volume := max 0 (min 1 (current_volume + delta_fraction))
      match get_sonos_device env s1 with
      | (none, s2) => repin s2
      | (some d, s2) =>
        let target_percent := pyRound (new_volume * 100)
        if d.ctl.writeFails then repin s2
        else
          repin { s2 with sonosDevice := some (d.setVol target_percent),
                          currentSonosVolume := new_volume,
                          lastVolumeValue := new_volume }

/-- The Windows-volume half of one volume_monitor_thread cycle (source
lines 543-551): read the Windows master volume; on read failure skip;
when it deviates from PINNED_VOLUME forward the delta. -/
def volumePollStep (cfg : Config) (env : ResolutionEnv) (setVolOk : Bool)
    (current_percent : Option ℤ) (s : SyncState) : SyncState × List ℤ :=
  match current_percent with
  | none => (s, [])
  | some p =>
    if p ≠ cfg.pinnedVolume then
      handle_external_volume_change cfg env setVolOk (p - cfg.pinnedVolume) s
    else (s, [])

/-- The desired local mute computed in volume_monitor_thread (source line
568): mute exactly when the Sonos transport state is PLAYING and the
current media channel is not Line-In. -/
def desiredMute (state channel : String) : Bool :=
  state == "PLAYING" && channel != "Line-In"

/-- The Sonos-state half of one volume_monitor_thread cycle (source lines
553-577): read transport state and media channel, compute the desired
mute, and call set_playback_mute only when it differs from the last
applied state (or none was ever applied).  setMuteOk says whether the
local call succeeds; the returned list records its arguments. -/
def muteSyncStep (env : ResolutionEnv) (setMuteOk : Bool) (s : SyncState) :
    SyncState × List Bool :=
  match get_sonos_device env s with
  | (none, s1) => (s1, [])
  | (some d, s1) =>
    if d.ctl.stateReadFails then (s1, [])
    else
      let should_mute := desiredMute d.ctl.transportState d.ctl.channel
      if s1.lastMuteState = none ∨ s1.lastMuteState ≠ some should_mute then
        if setMuteOk then ({ s1 with lastMuteState := some should_mute }, [should_mute])
        else (s1, [should_mute])
      else (s1, [])

/-- process_volume_steps (source lines 741-762): atomically read and clear
the accumulator and drop the timer; if the net value is nonzero issue one
send_sonos_command whose magnitude is min(abs(steps), 10) and whose
direction is the sign of the accumulated value.  The returned list records
the (service, step) arguments of the send_sonos_command calls issued. -/
def process_volume_steps (env : ResolutionEnv) (s : SyncState) :
    SyncState × List (String × ℚ) :=
  let steps := s.volumeSteps
  let s0 := { s with volumeSteps := 0, timerPending := false }
  if steps = 0 then (s0, [])
  else
    let step_size := min (abs steps) 10
    let service := if 0 < steps then "volume_up" else "volume_down"
    let s1 := (send_sonos_command env service step_size s0).2
    (s1, [(service, step_size)])

/-- The step-size computation of handle_volume_key (source lines 782-795):
linear mode returns the base step; exponential mode returns
max(base, base * (1 + v * (factor - 1))). -/
def stepCurve (currentVolume baseStep : ℚ) (useExponential : Bool) (factor : ℚ) : ℚ :=
  if useExponential then max baseStep (baseStep * (1 + currentVolume * (factor - 1)))
  else baseStep

/-- handle_volume_key (source lines 765-812): report not handled when the
target device is not active; swallow (return True, change nothing) when
the elapsed time since the last accepted press is below the debounce
threshold; otherwise record the press time, compute the signed step, add
it to the accumulator, restart the aggregation timer, and call
set_volume(PINNED_VOLUME).  active models is_sonos_five_active(), nowMs
the monotonic clock, setVolOk the success of the local volume write; the
returned list records the arguments of set_volume calls. -/
def handle_volume_key (cfg : Config) (env : ResolutionEnv) (active : Bool) (nowMs : ℚ)
    (setVolOk : Bool) (action : String) (s : SyncState) : Bool × SyncState × List ℤ :=
  if !active then (false, s, [])
  else if nowMs - s.lastKeyPressMs < cfg.debounceMs then (true, s, [])
  else
    let s1 := { s with lastKeyPressMs := nowMs, lastAction := action }
    match get_sonos_volume env s1 with
    | (current_volume, s2) =>
      let step0 := stepCurve current_volume cfg.volumeStep cfg.useExponential
        cfg.exponentialFactor
      let step := if action = "down" then -step0 else step0
      let s3 := { s2 with volumeSteps := s2.volumeSteps + step, timerPending := true }
      let s4 := if setVolOk then { s3 with localVolume := cfg.pinnedVolume } else s3
      (true, s4, [cfg.pinnedVolume])

/-- A run of handle_volume_key over a list of press times with the target
device active, counting how many presses take the accepted (non-debounced)
path. -/
def runKeys (cfg : Config) (env : ResolutionEnv) (setVolOk : Bool) (action : String) :
    SyncState → List ℚ → SyncState × ℕ
  | s, [] => (s, 0)
  | s, t :: ts =>
    ((runKeys cfg env setVolOk action
        ((handle_volume_key cfg env true t setVolOk action s).2.1) ts).1,
     (if cfg.debounceMs ≤ t - s.lastKeyPressMs then 1 else 0) +
       (runKeys cfg env setVolOk action
         ((handle_volume_key cfg env true t setVolOk action s).2.1) ts).2)

/-- The range invariant of the cached remote volume fraction: both
current_sonos_volume and _last_volume_value lie in the unit interval. -/
def volInv (s : SyncState) : Prop :=
  0 ≤ s.currentSonosVolume ∧ s.currentSonosVolume ≤ 1 ∧
  0 ≤ s.lastVolumeValue ∧ s.lastVolumeValue ≤ 1

/-- Writing the volume leaves every other attribute of the device alone. -/
theorem Dev.setVol_ctl (d : Dev) (v : ℤ) :
    (d.setVol v).ctl = { d.ctl with vol := v } := by
  cases d with
  | mk n c g k => rfl

/-- Rounding an integer returns that integer. -/
theorem pyRound_intCast (k : ℤ) : pyRound (k : ℚ) = k := by
  unfold pyRound
  simp [Int.floor_intCast]

/-- A cached handle is returned as is, without touching the state. -/
theorem get_sonos_device_cached (env : ResolutionEnv) (s : SyncState) (d : Dev)
    (hd : s.sonosDevice = some d) : get_sonos_device env s = (some d, s) := by
  unfold get_sonos_device
  rw [hd]

/-- get_sonos_device either leaves the state unchanged or caches exactly the
device it returns. -/
theorem get_sonos_device_cases (env : ResolutionEnv) (s : SyncState) :
    (get_sonos_device env s).2 = s ∨
    ∃ d, (get_sonos_device env s).1 = some d ∧
      (get_sonos_device env s).2 = { s with sonosDevice := some d } := by
  unfold get_sonos_device
  cases hs : s.sonosDevice with
  | some d => exact Or.inl rfl
  | none =>
    repeat' split
    all_goals first
      | exact Or.inl rfl
      | exact Or.inr ⟨_, rfl, rfl⟩

/-- get_sonos_device changes no global other than the cached handle. -/
theorem get_sonos_device_frame (env : ResolutionEnv) (s : SyncState) :
    (get_sonos_device env s).2.currentSonosVolume = s.currentSonosVolume ∧
    (get_sonos_device env s).2.lastVolumeValue = s.lastVolumeValue ∧
    (get_sonos_device env s).2.volumeSteps = s.volumeSteps ∧
    (get_sonos_device env s).2.timerPending = s.timerPending ∧
    (get_sonos_device env s).2.lastMuteState = s.lastMuteState ∧
    (get_sonos_device env s).2.lastKeyPressMs = s.lastKeyPressMs ∧
    (get_sonos_device env s).2.lastAction = s.lastAction ∧
    (get_sonos_device env s).2.localVolume = s.localVolume := by
  rcases get_sonos_device_cases env s with h | ⟨d, _, h⟩ <;> rw [h] <;>
    exact ⟨rfl, rfl, rfl, rfl, rfl, rfl, rfl, rfl⟩

/-- get_sonos_volume either leaves the device-resolution state unchanged or
additionally stores a clamped fraction in the two volume globals. -/
theorem get_sonos_volume_cases (env : ResolutionEnv) (s : SyncState) :
    (get_sonos_volume env s).2 = (get_sonos_device env s).2 ∨
    ∃ v : ℚ, 0 ≤ v ∧ v ≤ 1 ∧ (get_sonos_volume env s).1 = v ∧
      (get_sonos_volume env s).2 =
        { (get_sonos_device env s).2 with lastVolumeValue := v,
                                          currentSonosVolume := v } := by
  obtain ⟨o, s1, hg⟩ : ∃ o s1, get_sonos_device env s = (o, s1) := ⟨_, _, rfl⟩
  unfold get_sonos_volume
  rw [hg]
  cases o with
  | none => exact Or.inl rfl
  | some d =>
    dsimp only
    by_cases hr : d.ctl.readFails = true
    · rw [if_pos hr]
      exact Or.inl rfl
    · rw [if_neg hr]
      exact Or.inr ⟨max 0 (min 1 ((d.ctl.vol : ℚ) / 100)), le_max_left _ _,
        max_le (by norm_num) (min_le_left _ _), rfl, rfl⟩

/-- get_sonos_volume changes no global other than the cached handle and the
two cached volume fractions. -/
theorem get_sonos_volume_frame (env : ResolutionEnv) (s : SyncState) :
    (get_sonos_volume env s).2.volumeSteps = s.volumeSteps ∧
    (get_sonos_volume env s).2.timerPending = s.timerPending ∧
    (get_sonos_volume env s).2.lastMuteState = s.lastMuteState ∧
    (get_sonos_volume env s).2.lastKeyPressMs = s.lastKeyPressMs ∧
    (get_sonos_volume env s).2.lastAction = s.lastAction ∧
    (get_sonos_volume env s).2.localVolume = s.localVolume ∧
    (get_sonos_volume env s).2.sonosDevice = (get_sonos_device env s).2.sonosDevice := by
  obtain ⟨-, -, h3, h4, h5, h6, h7, h8⟩ := get_sonos_device_frame env s
  rcases get_sonos_volume_cases env s with h | ⟨v, -, -, -, h⟩ <;> rw [h] <;>
    exact ⟨h3, h4, h5, h6, h7, h8, rfl⟩

/-- With a cached, readable device, get_sonos_volume returns the clamped
fraction and stores it. -/
theorem get_sonos_volume_cached (env : ResolutionEnv) (s : SyncState) (d : Dev)
    (hd : s.sonosDevice = some d) (hr : d.ctl.readFails = false) :
    get_sonos_volume env s =
      (max 0 (min 1 ((d.ctl.vol : ℚ) / 100)),
       { s with lastVolumeValue := max 0 (min 1 ((d.ctl.vol : ℚ) / 100)),
                currentSonosVolume := max 0 (min 1 ((d.ctl.vol : ℚ) / 100)) }) := by
  unfold get_sonos_volume
  rw [get_sonos_device_cached env s d hd]
  simp [hr]

/-- With a cached device whose read raises, get_sonos_volume falls back to
the last known value and changes nothing at all. -/
theorem get_sonos_volume_cached_fail (env : ResolutionEnv) (s : SyncState) (d : Dev)
    (hd : s.sonosDevice = some d) (hr : d.ctl.readFails = true) :
    get_sonos_volume env s = (s.lastVolumeValue, s) := by
  unfold get_sonos_volume
  rw [get_sonos_device_cached env s d hd]
  simp [hr]

/-- send_sonos_command on a cached device whose volume read raises reports
False and leaves the state, in particular the cached handle, untouched. -/
theorem send_sonos_command_cached_fail (env : ResolutionEnv) (s : SyncState) (d : Dev)
    (service : String) (steps : ℚ)
    (hd : s.sonosDevice = some d) (hr : d.ctl.readFails = true) :
    send_sonos_command env service steps s = (false, s) := by
  unfold send_sonos_command
  rw [get_sonos_device_cached env s d hd]
  simp [hr]

/-- send_sonos_command with service volume_up on a cached working device:
reads the volume, clamps the increased percent to at most 100, writes the
rounded value back and caches the fraction. -/
theorem send_sonos_command_up_cached (env : ResolutionEnv) (s : SyncState) (d : Dev) (k : ℚ)
    (hd : s.sonosDevice = some d) (hr : d.ctl.readFails = false)
    (hw : d.ctl.writeFails = false) :
    send_sonos_command env "volume_up" k s =
      (true, { s with
        sonosDevice := some (d.setVol (pyRound (min 100 ((d.ctl.vol : ℚ) + max (1/10) k)))),
        currentSonosVolume := min 100 ((d.ctl.vol : ℚ) + max (1/10) k) / 100,
        lastVolumeValue := min 100 ((d.ctl.vol : ℚ) + max (1/10) k) / 100 }) := by
  unfold send_sonos_command
  rw [get_sonos_device_cached env s d hd]
  simp [hr, hw]

/-- send_sonos_command with service volume_down on a cached working device:
reads the volume, clamps the decreased percent to at least 0, writes the
rounded value back and caches the fraction. -/
theorem send_sonos_command_down_cached (env : ResolutionEnv) (s : SyncState) (d : Dev) (k : ℚ)
    (hd : s.sonosDevice = some d) (hr : d.ctl.readFails = false)
    (hw : d.ctl.writeFails = false) :
    send_sonos_command env "volume_down" k s =
      (true, { s with
        sonosDevice := some (d.setVol (pyRound (max 0 ((d.ctl.vol : ℚ) - max (1/10) k)))),
        currentSonosVolume := max 0 ((d.ctl.vol : ℚ) - max (1/10) k) / 100,
        lastVolumeValue := max 0 ((d.ctl.vol : ℚ) - max (1/10) k) / 100 }) := by
  unfold send_sonos_command
  rw [get_sonos_device_cached env s d hd]
  simp [hr, hw]

/-- A key press that arrives while the target device is active but within
the debounce window is swallowed: handled is reported, and the state, the
accumulator, the timer and the cached device are left exactly as they
were, with no set_volume call. -/
theorem handle_volume_key_swallow (cfg : Config) (env : ResolutionEnv) (ok : Bool)
    (action : String) (s : SyncState) (t : ℚ)
    (h : t - s.lastKeyPressMs < cfg.debounceMs) :
    handle_volume_key cfg env true t ok action s = (true, s, []) := by
  unfold handle_volume_key
  dsimp only
  rw [if_pos h]
  rfl

/-- An accepted (non-debounced) key press records its own time stamp as the
last accepted press time. -/
theorem handle_volume_key_accept_lastKey (cfg : Config) (env : ResolutionEnv) (ok : Bool)
    (action : String) (s : SyncState) (t : ℚ)
    (h : ¬(t - s.lastKeyPressMs < cfg.debounceMs)) :
    (handle_volume_key cfg env true t ok action s).2.1.lastKeyPressMs = t := by
  unfold handle_volume_key
  dsimp only
  rw [if_neg h]
  obtain ⟨v, s2, hv⟩ : ∃ v s2,
      get_sonos_volume env { s with lastKeyPressMs := t, lastAction := action } = (v, s2) :=
    ⟨_, _, rfl⟩
  rw [hv]
  have h2 : s2.lastKeyPressMs = t := by
    have hf := (get_sonos_volume_frame env
      { s with lastKeyPressMs := t, lastAction := action }).2.2.2.1
    rw [hv] at hf
    exact hf
  cases ok with
  | true => exact h2
  | false => exact h2

/-- A run in which every press time is within the debounce window of the
last accepted press swallows everything and changes nothing. -/
theorem runKeys_swallowed (cfg : Config) (env : ResolutionEnv) (ok : Bool) (action : String)
    (ts : List ℚ) (s : SyncState)
    (h : ∀ u ∈ ts, u - s.lastKeyPressMs < cfg.debounceMs) :
    runKeys cfg env ok action s ts = (s, 0) := by
  induction ts with
  | nil => rfl
  | cons u us ih =>
    have hu := h u (List.mem_cons_self u us)
    unfold runKeys
    rw [handle_volume_key_swallow cfg env ok action s u hu,
        if_neg (not_le.mpr hu)]
    dsimp only
    rw [ih (fun x hx => h x (List.mem_cons_of_mem u hx))]
    simp

/-- Concrete device for the C1 scenario: the cached Sonos raises on any
volume read. -/
def devC1 : Dev := .mk "Sonos Five" true none { vol := 50, readFails := true }

/-- Concrete state for the C1 scenario: devC1 is cached. -/
def stC1 : SyncState := { sonosDevice := some devC1, lastVolumeValue := 1/2 }

/-- Concrete device for the C1 write-failure scenario: volume reads
succeed but any volume write raises. -/
def devC1w : Dev := .mk "Sonos Five" true none { vol := 50, writeFails := true }

/-- Concrete state for the C1 write-failure scenario: devC1w is cached. -/
def stC1w : SyncState := { sonosDevice := some devC1w, lastVolumeValue := 1/2 }

/-- Concrete resolution environment with nothing discoverable. -/
def envC1 : ResolutionEnv := {}

/-- C1, counterexample: reading or writing the remote volume fails (the
device raises), send_sonos_command duly reports False — but the cached
handle is NOT set back to unset; the very same device object stays
cached, contradicting the claim that any operation failure invalidates
the cached handle. -/
theorem C1_counterexample :
    (send_sonos_command envC1 "volume_up" 2 stC1).1 = false ∧
    (send_sonos_command envC1 "volume_up" 2 stC1).2.sonosDevice = some devC1 := by
  rw [send_sonos_command_cached_fail envC1 stC1 devC1 "volume_up" 2 rfl rfl]
  exact ⟨rfl, rfl⟩

/-- C1, amended: when an operation on the cached remote device fails — a
raised volume read or a raised volume write — the failure is reported to
the caller as a failure result (send_sonos_command returns False,
get_sonos_volume returns the last known value) and nothing is raised as
fatal; but the cached handle is NOT invalidated: send_sonos_command
leaves the state, including the cached handle, exactly as it was,
get_sonos_volume does so on a failed read, and
handle_external_volume_change never resets the handle to unset either;
the next call therefore reuses the same handle instead of re-resolving. -/
theorem C1_failure_reported_handle_kept (cfg : Config) (env : ResolutionEnv) (ok : Bool)
    (s : SyncState) (d : Dev) (hd : s.sonosDevice = some d)
    (hfail : d.ctl.readFails = true ∨ d.ctl.writeFails = true) :
    (∀ service steps, send_sonos_command env service steps s = (false, s)) ∧
    (d.ctl.readFails = true → get_sonos_volume env s = (s.lastVolumeValue, s)) ∧
    (∀ delta : ℤ, (handle_external_volume_change cfg env ok delta s).1.sonosDevice ≠ none) := by
  refine ⟨?_, fun hr => get_sonos_volume_cached_fail env s d hd hr, ?_⟩
  · intro service steps
    by_cases hr : d.ctl.readFails = true
    · exact send_sonos_command_cached_fail env s d service steps hd hr
    · have hw : d.ctl.writeFails = true := hfail.resolve_left hr
      unfold send_sonos_command
      rw [get_sonos_device_cached env s d hd]
      dsimp only
      rw [if_neg hr]
      by_cases hup : service = "volume_up"
      · rw [if_pos hup]
        dsimp only
        rw [if_pos hw]
      · rw [if_neg hup]
        by_cases hdn : service = "volume_down"
        · rw [if_pos hdn]
          dsimp only
          rw [if_pos hw]
        · rw [if_neg hdn]
  · intro delta
    unfold handle_external_volume_change
    by_cases h0 : delta = 0
    · rw [if_pos h0]
      dsimp only
      rw [hd]
      exact fun hc => Option.noConfusion hc
    · rw [if_neg h0]
      obtain ⟨v1, s1, hv⟩ : ∃ v1 s1, get_sonos_volume env s = (v1, s1) := ⟨_, _, rfl⟩
      rw [hv]
      have hs1 : s1.sonosDevice = some d := by
        have hf := (get_sonos_volume_frame env s).2.2.2.2.2.2
        rw [hv, get_sonos_device_cached env s d hd] at hf
        exact hf.trans hd
      dsimp only
      rw [get_sonos_device_cached env s1 d hs1]
      dsimp only
      by_cases hw2 : d.ctl.writeFails = true <;> cases ok <;> simp [hw2, hs1]

/-- C1, witness for the amended theorem at both concrete failing devices:
one whose read raises and one whose write raises. -/
theorem C1_witness :
    send_sonos_command envC1 "volume_down" 3 stC1 = (false, stC1) ∧
    get_sonos_volume envC1 stC1 = (stC1.lastVolumeValue, stC1) ∧
    (handle_external_volume_change { } envC1 true 7 stC1).1.sonosDevice ≠ none ∧
    send_sonos_command envC1 "volume_up" 3 stC1w = (false, stC1w) ∧
    (handle_external_volume_change { } envC1 true (-5) stC1w).1.sonosDevice ≠ none := by
  have h1 := C1_failure_reported_handle_kept { } envC1 true stC1 devC1 rfl (Or.inl rfl)
  have h2 := C1_failure_reported_handle_kept { } envC1 true stC1w devC1w rfl (Or.inr rfl)
  exact ⟨h1.1 "volume_down" 3, h1.2.1 rfl, h1.2.2 7, h2.1 "volume_up" 3, h2.2.2 (-5)⟩

/-- Concrete configuration for the C2 scenario: a positive debounce
threshold of 5 ms. -/
def cfgC2 : Config := { debounceMs := 5 }

/-- Concrete state for the C2 scenario: last accepted press at 100 ms,
local volume currently 50, away from the pinned level. -/
def stC2 : SyncState := { lastKeyPressMs := 100, localVolume := 50 }

/-- Concrete resolution environment for the C2 scenario. -/
def envC2 : ResolutionEnv := {}

/-- C2, counterexample: a key press swallowed by the debounce check is
reported handled (True) but makes no set_volume call at all, so the local
volume stays at 50 instead of being re-pinned to PinnedLevel = 33 — the
claim that every accepted key event, including swallowed ones, re-pins
before returning True is false. -/
theorem C2_counterexample :
    (handle_volume_key cfgC2 envC2 true 102 true "up" stC2).1 = true ∧
    (handle_volume_key cfgC2 envC2 true 102 true "up" stC2).2.2 = [] ∧
    (handle_volume_key cfgC2 envC2 true 102 true "up" stC2).2.1.localVolume = 50 ∧
    cfgC2.pinnedVolume = 33 := by
  rw [handle_volume_key_swallow cfgC2 envC2 true "up" stC2 102
    (by norm_num [stC2, cfgC2])]
  exact ⟨rfl, rfl, rfl, rfl⟩

/-- C2, amended: a key press accepted past the debounce check calls
set_volume(PINNED_VOLUME) before returning True (so the local volume
equals PinnedLevel whenever that local write succeeds); a key press
swallowed by the debounce check, however, returns True without any
set_volume call and leaves the state entirely unchanged.  (With the
source value DEBOUNCE_TIME_MS = 0 and a monotonic clock no press is ever
swallowed, so every handled press does re-pin.) -/
theorem C2_repin_on_accepted_only (cfg : Config) (env : ResolutionEnv) (ok : Bool)
    (action : String) (s : SyncState) (t : ℚ) :
    (cfg.debounceMs ≤ t - s.lastKeyPressMs →
      (handle_volume_key cfg env true t ok action s).1 = true ∧
      (handle_volume_key cfg env true t ok action s).2.2 = [cfg.pinnedVolume] ∧
      (ok = true →
        (handle_volume_key cfg env true t ok action s).2.1.localVolume = cfg.pinnedVolume)) ∧
    (t - s.lastKeyPressMs < cfg.debounceMs →
      handle_volume_key cfg env true t ok action s = (true, s, [])) := by
  constructor
  · intro h
    have hnlt : ¬(t - s.lastKeyPressMs < cfg.debounceMs) := not_lt.mpr h
    unfold handle_volume_key
    dsimp only
    rw [if_neg hnlt]
    obtain ⟨v, s2, hv⟩ : ∃ v s2,
        get_sonos_volume env { s with lastKeyPressMs := t, lastAction := action } = (v, s2) :=
      ⟨_, _, rfl⟩
    rw [hv]
    refine ⟨rfl, rfl, ?_⟩
    intro hok
    rw [hok]
    rfl
  · exact handle_volume_key_swallow cfg env ok action s t

/-- C2, witness for the amended theorem: with the default configuration
(debounce 0, pinned level 33) an accepted press at time 5 reports handled,
calls set_volume(33), and leaves the local volume pinned at 33; and in the
configuration cfgC2 a press at 102, 2 ms after the last accepted press,
is swallowed unchanged. -/
theorem C2_witness :
    ((handle_volume_key { } { } true 5 true "up" { }).1 = true ∧
      (handle_volume_key { } { } true 5 true "up" { }).2.2 = [(33 : ℤ)] ∧
      (handle_volume_key { } { } true 5 true "up" { }).2.1.localVolume = 33) ∧
    handle_volume_key cfgC2 envC2 true 102 true "up" stC2 = (true, stC2, []) := by
  have h1 := (C2_repin_on_accepted_only { } { } true "up" { } 5).1 (by norm_num)
  have h2 := (C2_repin_on_accepted_only cfgC2 envC2 true "up" stC2 102).2
    (by norm_num [stC2, cfgC2])
  exact ⟨⟨h1.1, h1.2.1, h1.2.2 rfl⟩, h2⟩

/-- Concrete configuration for the C8 scenario: debounce threshold 5 ms. -/
def cfgC8 : Config := { debounceMs := 5 }

/-- Concrete starting state for the C8 scenario. -/
def stC8 : SyncState := { lastKeyPressMs := 0 }

/-- Concrete state for the C8 swallow witness: last accepted press at 10. -/
def stC8a : SyncState := { lastKeyPressMs := 10, volumeSteps := 7 }

/-- Concrete resolution environment for the C8 scenario. -/
def envC8 : ResolutionEnv := {}

/-- C8: while the target device is active, a key press within the debounce
window is swallowed — it reports handled (True) and changes nothing: the
step accumulator, the aggregation timer, the cached device (hence the
remote volume) and the local volume are all exactly as before and no
set_volume call is made; and in a run whose first press is past the
debounce window and whose remaining presses all fall within the window of
that first press, exactly one press is accepted. -/
theorem C8_debounce_swallows (cfg : Config) (env : ResolutionEnv) (ok : Bool)
    (action : String) (s : SyncState) (t : ℚ) (ts : List ℚ)
    (hfirst : cfg.debounceMs ≤ t - s.lastKeyPressMs)
    (hrest : ∀ u ∈ ts, u - t < cfg.debounceMs) :
    (∀ (u : ℚ) (s' : SyncState), u - s'.lastKeyPressMs < cfg.debounceMs →
      handle_volume_key cfg env true u ok action s' = (true, s', [])) ∧
    (runKeys cfg env ok action s (t :: ts)).2 = 1 := by
  refine ⟨fun u s' h => handle_volume_key_swallow cfg env ok action s' u h, ?_⟩
  unfold runKeys
  rw [if_pos hfirst]
  have hl := handle_volume_key_accept_lastKey cfg env ok action s t (not_lt.mpr hfirst)
  rw [runKeys_swallowed cfg env ok action ts
    ((handle_volume_key cfg env true t ok action s).2.1) (fun u hu => by
      rw [hl]
      exact hrest u hu)]
  simp

/-- C8, witness: with debounce 5 and presses at 10, 11, 12 from a state
whose last accepted press was at 0, exactly one press is accepted; and a
single press at 11 against a state whose last accepted press was at 10 is
swallowed with the state unchanged. -/
theorem C8_witness :
    handle_volume_key cfgC8 envC8 true 11 true "up" stC8a = (true, stC8a, []) ∧
    (runKeys cfgC8 envC8 true "up" stC8 [10, 11, 12]).2 = 1 := by
  have h := C8_debounce_swallows cfgC8 envC8 true "up" stC8 10 [11, 12]
    (by norm_num [stC8, cfgC8])
    (by
      intro u hu
      rcases List.mem_cons.mp hu with rfl | hu2
      · norm_num [cfgC8]
      · rcases List.mem_cons.mp hu2 with rfl | hu3
        · norm_num [cfgC8]
        · cases hu3)
  exact ⟨h.1 11 stC8a (by norm_num [stC8a, cfgC8]), h.2⟩

/-- C4: the step-size computation of handle_volume_key: in exponential
mode the step never drops below the base step and is monotonically
non-decreasing in the current volume fraction for fixed base and factor;
in linear mode it equals the base step unconditionally; and at base 1,
factor 10, volume fraction 1/5 the step is 14/5 = 2.8. -/
theorem C4_stepCurve_bounds_mono (v₁ v₂ base factor : ℚ)
    (h0 : 0 ≤ v₁) (h12 : v₁ ≤ v₂) (_hv2 : v₂ ≤ 1) :
    base ≤ stepCurve v₁ base true factor ∧
    stepCurve v₁ base true factor ≤ stepCurve v₂ base true factor ∧
    stepCurve v₁ base false factor = base ∧
    stepCurve (1/5) 1 true 10 = 14/5 := by
  refine ⟨le_max_left _ _, ?_, rfl, ?_⟩
  · show max base (base * (1 + v₁ * (factor - 1))) ≤
      max base (base * (1 + v₂ * (factor - 1)))
    apply max_le (le_max_left _ _)
    rcases le_or_lt 0 (base * (factor - 1)) with hk | hk
    · refine le_trans ?_ (le_max_right _ _)
      nlinarith [mul_nonneg hk (sub_nonneg.mpr h12)]
    · refine le_trans ?_ (le_max_left _ _)
      nlinarith [mul_nonpos_of_nonpos_of_nonneg hk.le h0]
  · show max 1 ((1 : ℚ) * (1 + (1/5) * (10 - 1))) = 14/5
    rw [show (1 : ℚ) * (1 + (1/5) * (10 - 1)) = 14/5 by norm_num]
    exact max_eq_right (by norm_num)

/-- C4, witness at volume fractions 0 and 1 with base 2 and factor 3. -/
theorem C4_witness :
    (2 : ℚ) ≤ stepCurve 0 2 true 3 ∧
    stepCurve 0 2 true 3 ≤ stepCurve 1 2 true 3 ∧
    stepCurve 0 2 false 3 = 2 ∧
    stepCurve (1/5) 1 true 10 = 14/5 :=
  C4_stepCurve_bounds_mono 0 1 2 3 (by norm_num) (by norm_num) (by norm_num)

/-- send_sonos_command either leaves the state as get_sonos_device left it,
or writes the clamped new percent (increased for volume_up, decreased for
volume_down) to the cached device and stores the corresponding fraction. -/
theorem send_sonos_command_cases (env : ResolutionEnv) (service : String) (steps : ℚ)
    (s : SyncState) :
    (send_sonos_command env service steps s).2 = (get_sonos_device env s).2 ∨
    ∃ d q, (get_sonos_device env s).1 = some d ∧
      (q = min 100 ((d.ctl.vol : ℚ) + max (1/10) steps) ∨
        q = max 0 ((d.ctl.vol : ℚ) - max (1/10) steps)) ∧
      (send_sonos_command env service steps s).2 =
        { (get_sonos_device env s).2 with
          sonosDevice := some (d.setVol (pyRound q)),
          currentSonosVolume := q / 100,
          lastVolumeValue := q / 100 } := by
  obtain ⟨o, s1, hg⟩ : ∃ o s1, get_sonos_device env s = (o, s1) := ⟨_, _, rfl⟩
  unfold send_sonos_command
  rw [hg]
  cases o with
  | none => exact Or.inl rfl
  | some d =>
    dsimp only
    by_cases hr : d.ctl.readFails = true
    · rw [if_pos hr]
      exact Or.inl rfl
    · rw [if_neg hr]
      by_cases hup : service = "volume_up"
      · rw [if_pos hup]
        dsimp only
        by_cases hw : d.ctl.writeFails = true
        · rw [if_pos hw]
          exact Or.inl rfl
        · rw [if_neg hw]
          exact Or.inr ⟨d, _, rfl, Or.inl rfl, rfl⟩
      · rw [if_neg hup]
        by_cases hdn : service = "volume_down"
        · rw [if_pos hdn]
          dsimp only
          by_cases hw : d.ctl.writeFails = true
          · rw [if_pos hw]
            exact Or.inl rfl
          · rw [if_neg hw]
            exact Or.inr ⟨d, _, rfl, Or.inr rfl, rfl⟩
        · rw [if_neg hdn]
          exact Or.inl rfl

/-- send_sonos_command changes no global other than the cached device and
the two cached volume fractions. -/
theorem send_sonos_command_frame (env : ResolutionEnv) (service : String) (steps : ℚ)
    (s : SyncState) :
    (send_sonos_command env service steps s).2.volumeSteps = s.volumeSteps ∧
    (send_sonos_command env service steps s).2.timerPending = s.timerPending ∧
    (send_sonos_command env service steps s).2.localVolume = s.localVolume := by
  obtain ⟨-, -, h3, h4, -, -, -, h8⟩ := get_sonos_device_frame env s
  rcases send_sonos_command_cases env service steps s with h | ⟨d, q, -, -, h⟩ <;> rw [h] <;>
    exact ⟨h3, h4, h8⟩

/-- C5: when the aggregation timer fires, process_volume_steps reads and
clears the accumulator (it is 0 after every flush); a net value of zero
issues no remote command, and a nonzero net value issues exactly one
send_sonos_command whose direction is the sign of the accumulated value
and whose magnitude is the accumulated magnitude clamped to at most 10
percentage points. -/
theorem C5_flush_single_command (env : ResolutionEnv) (s : SyncState) :
    (process_volume_steps env s).1.volumeSteps = 0 ∧
    (s.volumeSteps = 0 → process_volume_steps env s =
      ({ s with volumeSteps := 0, timerPending := false }, [])) ∧
    (s.volumeSteps ≠ 0 →
      (process_volume_steps env s).2 =
        [(if 0 < s.volumeSteps then "volume_up" else "volume_down",
          min (abs s.volumeSteps) 10)] ∧
      min (abs s.volumeSteps) 10 ≤ 10) := by
  by_cases hz : s.volumeSteps = 0
  · unfold process_volume_steps
    rw [if_pos hz]
    exact ⟨rfl, fun _ => rfl, fun hnz => absurd hz hnz⟩
  · unfold process_volume_steps
    rw [if_neg hz]
    dsimp only
    refine ⟨?_, fun h0 => absurd h0 hz, fun _ => ⟨rfl, min_le_right _ _⟩⟩
    exact (send_sonos_command_frame env _ _ _).1

/-- Concrete state for the C5 witness: 12 accumulated step points. -/
def stC5 : SyncState := { volumeSteps := 12 }

/-- Concrete resolution environment for the C5 witness. -/
def envC5 : ResolutionEnv := {}

/-- C5, witness: flushing an accumulator holding +12 issues exactly one
volume_up command of magnitude 10 and zeroes the accumulator. -/
theorem C5_witness :
    (process_volume_steps envC5 stC5).1.volumeSteps = 0 ∧
    (process_volume_steps envC5 stC5).2 = [("volume_up", (10 : ℚ))] := by
  have h := C5_flush_single_command envC5 stC5
  have h2 := (h.2.2 (by norm_num [stC5])).1
  refine ⟨h.1, ?_⟩
  rw [h2]
  norm_num [stC5]

/-- C6: on a Sonos-state poll with a cached readable device, the decision
logic issues no set_playback_mute call exactly when the last applied mute
state already equals the desired mute (never a redundant reapply), and
any call it does issue carries the desired mute, computed as: transport
state is PLAYING and the channel is not Line-In; in particular transport
state PLAYING with channel Line-In yields desired mute = false. -/
theorem C6_mute_on_transitions_only (env : ResolutionEnv) (ok : Bool) (s : SyncState)
    (d : Dev) (hd : s.sonosDevice = some d) (hread : d.ctl.stateReadFails = false) :
    ((muteSyncStep env ok s).2 = [] ↔
      s.lastMuteState = some (desiredMute d.ctl.transportState d.ctl.channel)) ∧
    ((muteSyncStep env ok s).2 ≠ [] →
      (muteSyncStep env ok s).2 = [desiredMute d.ctl.transportState d.ctl.channel]) ∧
    desiredMute "PLAYING" "Line-In" = false := by
  have key : (muteSyncStep env ok s).2 =
      (if s.lastMuteState = some (desiredMute d.ctl.transportState d.ctl.channel) then []
       else [desiredMute d.ctl.transportState d.ctl.channel]) := by
    unfold muteSyncStep
    rw [get_sonos_device_cached env s d hd]
    dsimp only
    rw [hread, if_neg Bool.false_ne_true]
    by_cases hn : s.lastMuteState = none
    · have hns : s.lastMuteState ≠ some (desiredMute d.ctl.transportState d.ctl.channel) := by
        rw [hn]
        exact fun h => Option.noConfusion h
      rw [if_pos (Or.inl hn), if_neg hns]
      cases ok <;> rfl
    · by_cases he : s.lastMuteState = some (desiredMute d.ctl.transportState d.ctl.channel)
      · rw [if_neg (by simp [he]), if_pos he]
      · rw [if_pos (Or.inr he), if_neg he]
        cases ok <;> rfl
  rw [key]
  by_cases he : s.lastMuteState = some (desiredMute d.ctl.transportState d.ctl.channel) <;>
    simp [he] <;> decide

/-- Concrete device for the C6 witness, playing over Line-In. -/
def devC6 : Dev :=
  .mk "Sonos Five" true none { vol := 40, transportState := "PLAYING", channel := "Line-In" }

/-- Concrete state for the C6 witness: devC6 cached, last applied mute is
unmuted. -/
def stC6 : SyncState := { sonosDevice := some devC6, lastMuteState := some false }

/-- Concrete resolution environment for the C6 witness. -/
def envC6 : ResolutionEnv := {}

/-- C6, witness: with the Sonos PLAYING over Line-In and the last applied
mute already false, desired mute is false and no mute call is issued. -/
theorem C6_witness :
    (muteSyncStep envC6 true stC6).2 = [] ∧
    desiredMute "PLAYING" "Line-In" = false := by
  have h := C6_mute_on_transitions_only envC6 true stC6 devC6 rfl rfl
  exact ⟨h.1.mpr rfl, h.2.2⟩

/-- Unfolding of pyRound once the floor of the argument is known. -/
theorem pyRound_eq_of_floor (q : ℚ) (f : ℤ) (hf : ⌊q⌋ = f) :
    pyRound q = if q - f < 1/2 then f
      else if 1/2 < q - f then f + 1
      else if f % 2 = 0 then f else f + 1 := by
  unfold pyRound
  rw [hf]

/-- On a nonzero delta, handle_external_volume_change reaches its finally
block on every path: set_volume(PINNED_VOLUME) is called exactly once, and
when that local write succeeds the local volume ends at the pinned level —
also on the unreachable-device and failed-write paths. -/
theorem handle_external_always_repins (cfg : Config) (env : ResolutionEnv) (ok : Bool)
    (delta : ℤ) (s : SyncState) (hδ : delta ≠ 0) :
    (handle_external_volume_change cfg env ok delta s).2 = [cfg.pinnedVolume] ∧
    (ok = true →
      (handle_external_volume_change cfg env ok delta s).1.localVolume = cfg.pinnedVolume) := by
  unfold handle_external_volume_change
  rw [if_neg hδ]
  obtain ⟨v1, s1, hv⟩ : ∃ v1 s1, get_sonos_volume env s = (v1, s1) := ⟨_, _, rfl⟩
  rw [hv]
  dsimp only
  obtain ⟨o, s2, hg⟩ : ∃ o s2, get_sonos_device env s1 = (o, s2) := ⟨_, _, rfl⟩
  rw [hg]
  cases o with
  | none =>
    dsimp only
    refine ⟨rfl, fun hok => ?_⟩
    rw [hok]
    rfl
  | some d =>
    dsimp only
    by_cases hw : d.ctl.writeFails = true
    · rw [if_pos hw]
      refine ⟨rfl, fun hok => ?_⟩
      rw [hok]
      rfl
    · rw [if_neg hw]
      refine ⟨rfl, fun hok => ?_⟩
      rw [hok]
      rfl

/-- C3: in a poll cycle whose observed local volume differs from
PinnedLevel, the watcher forwards the delta: set_volume(PINNED_VOLUME) is
called exactly once on every execution path (unreachable device and
failed remote write included) and re-pins the local volume whenever the
local write succeeds; and on the successful path with a cached working
device it converts the delta to a fraction, adds it to the clamped remote
volume fraction, clamps the sum to the unit interval, writes the rounded
resulting percent to the device, and stores the new fraction in both
cached volume globals. -/
theorem C3_external_change_forwarded (cfg : Config) (env : ResolutionEnv) (ok : Bool)
    (s : SyncState) (observed : ℤ) (hobs : observed ≠ cfg.pinnedVolume) :
    (volumePollStep cfg env ok (some observed) s).2 = [cfg.pinnedVolume] ∧
    (ok = true →
      (volumePollStep cfg env ok (some observed) s).1.localVolume = cfg.pinnedVolume) ∧
    (∀ d, s.sonosDevice = some d → d.ctl.readFails = false → d.ctl.writeFails = false →
      (volumePollStep cfg env ok (some observed) s).1.sonosDevice =
        some (d.setVol (pyRound
          (max 0 (min 1 (max 0 (min 1 ((d.ctl.vol : ℚ) / 100)) +
            ((observed - cfg.pinnedVolume : ℤ) : ℚ) / 100)) * 100))) ∧
      (volumePollStep cfg env ok (some observed) s).1.currentSonosVolume =
        max 0 (min 1 (max 0 (min 1 ((d.ctl.vol : ℚ) / 100)) +
          ((observed - cfg.pinnedVolume : ℤ) : ℚ) / 100)) ∧
      (volumePollStep cfg env ok (some observed) s).1.lastVolumeValue =
        max 0 (min 1 (max 0 (min 1 ((d.ctl.vol : ℚ) / 100)) +
          ((observed - cfg.pinnedVolume : ℤ) : ℚ) / 100))) := by
  have hδ : observed - cfg.pinnedVolume ≠ 0 := sub_ne_zero_of_ne hobs
  have hvol : volumePollStep cfg env ok (some observed) s =
      handle_external_volume_change cfg env ok (observed - cfg.pinnedVolume) s := by
    unfold volumePollStep
    dsimp only
    rw [if_pos hobs]
  rw [hvol]
  obtain ⟨hp1, hp2⟩ := handle_external_always_repins cfg env ok (observed - cfg.pinnedVolume) s hδ
  refine ⟨hp1, hp2, ?_⟩
  intro d hd hr hw
  unfold handle_external_volume_change
  rw [if_neg hδ, get_sonos_volume_cached env s d hd hr]
  dsimp only
  rw [get_sonos_device_cached env
    { s with lastVolumeValue := max 0 (min 1 ((d.ctl.vol : ℚ) / 100)),
             currentSonosVolume := max 0 (min 1 ((d.ctl.vol : ℚ) / 100)) } d hd]
  dsimp only
  rw [hw, if_neg Bool.false_ne_true]
  cases ok with
  | true => exact ⟨rfl, rfl, rfl⟩
  | false => exact ⟨rfl, rfl, rfl⟩

/-- Concrete device for the C3 witness: remote volume 50 percent. -/
def devC3 : Dev := .mk "Sonos Five" true none { vol := 50 }

/-- Concrete state for the C3 witness: devC3 cached, local volume 40. -/
def stC3 : SyncState := { sonosDevice := some devC3, localVolume := 40 }

/-- Concrete resolution environment for the C3 witness. -/
def envC3 : ResolutionEnv := {}

/-- C3, witness for the spec scenario: local volume observed at 40 with
PinnedLevel 33 and remote volume 50 percent — the delta +7 is forwarded,
the remote volume is set to 57 percent, and the local volume is re-pinned
to 33. -/
theorem C3_witness :
    (volumePollStep { } envC3 true (some 40) stC3).2 = [(33 : ℤ)] ∧
    (volumePollStep { } envC3 true (some 40) stC3).1.localVolume = 33 ∧
    (volumePollStep { } envC3 true (some 40) stC3).1.sonosDevice = some (devC3.setVol 57) := by
  have h := C3_external_change_forwarded { } envC3 true stC3 40 (by decide)
  have h3 := h.2.2 devC3 rfl rfl rfl
  refine ⟨h.1, h.2.1 rfl, ?_⟩
  rw [h3.1]
  have e : (max 0 (min 1 (max 0 (min 1 ((devC3.ctl.vol : ℚ) / 100)) +
      ((40 - ({ } : Config).pinnedVolume : ℤ) : ℚ) / 100)) * 100 : ℚ) = ((57 : ℤ) : ℚ) := by
    norm_num [devC3, Dev.ctl]
  rw [e, pyRound_intCast]

/-- Concrete device for the C7 counterexample: remote volume 51 percent. -/
def devC7 : Dev := .mk "Sonos Five" true none { vol := 51 }

/-- Concrete state for the C7 counterexample: devC7 cached. -/
def stC7 : SyncState := { sonosDevice := some devC7 }

/-- Concrete resolution environment for the C7 scenario. -/
def envC7 : ResolutionEnv := {}

/-- C7, counterexample: starting from remote volume 51 and stepping up then
down by the same magnitude 0.5 leaves the remote volume at 52, not 51,
although no clamping at the 0 or 100 boundary occurred — each write
rounds to an integer percent (51.5 rounds to 52 both times), so the
round-trip property fails for non-integer step sizes. -/
theorem C7_counterexample :
    ((send_sonos_command envC7 "volume_down" (1/2)
        (send_sonos_command envC7 "volume_up" (1/2) stC7).2).2.sonosDevice.map
      (fun x => x.ctl.vol)) = some 52 ∧
    (stC7.sonosDevice.map fun x => x.ctl.vol) = some 51 ∧
    (52 : ℤ) ≠ 51 ∧
    ((devC7.ctl.vol : ℚ) + max (1/10) (1/2) ≤ 100) ∧
    ((0 : ℚ) ≤ 52 - max (1/10) (1/2)) := by
  have hpy : pyRound (103/2 : ℚ) = 52 := by
    rw [pyRound_eq_of_floor (103/2 : ℚ) 51 (by norm_num [Int.floor_eq_iff])]
    norm_num
  have h1 := send_sonos_command_up_cached envC7 stC7 devC7 (1/2) rfl rfl rfl
  have e1 : min 100 ((devC7.ctl.vol : ℚ) + max (1/10) (1/2)) = 103/2 := by
    norm_num [devC7, Dev.ctl]
  rw [e1, hpy] at h1
  have hd1 : (send_sonos_command envC7 "volume_up" (1/2) stC7).2.sonosDevice =
      some (devC7.setVol 52) := by
    rw [h1]
  have h2 := send_sonos_command_down_cached envC7
    ((send_sonos_command envC7 "volume_up" (1/2) stC7).2) (devC7.setVol 52) (1/2) hd1 rfl rfl
  have e2 : max 0 (((devC7.setVol 52).ctl.vol : ℚ) - max (1/10) (1/2)) = 103/2 := by
    norm_num [devC7, Dev.setVol, Dev.ctl]
  rw [e2, hpy] at h2
  refine ⟨?_, rfl, by decide, by norm_num [devC7, Dev.ctl], by norm_num⟩
  rw [h2]
  rfl

/-- C7, amended: the round trip does hold for integer step magnitudes: for
any cached working device with volume in [0, 100 − n] and any integer
step n ≥ 1, volume_up by n followed by volume_down by n returns the
remote volume to its original value (no boundary clamping occurs and the
written percents are integers, so rounding is exact); for non-integer
magnitudes the per-write integer rounding can shift the result (see the
counterexample). -/
theorem C7_roundtrip_integer_steps (env : ResolutionEnv) (s : SyncState) (d : Dev) (n : ℕ)
    (hd : s.sonosDevice = some d) (hr : d.ctl.readFails = false)
    (hw : d.ctl.writeFails = false) (hn : 1 ≤ n)
    (h0 : 0 ≤ d.ctl.vol) (h100 : d.ctl.vol + n ≤ 100) :
    ((send_sonos_command env "volume_down" (n : ℚ)
        (send_sonos_command env "volume_up" (n : ℚ) s).2).2.sonosDevice.map
      (fun x => x.ctl.vol)) = some d.ctl.vol := by
  have hn1 : (1 : ℚ) ≤ (n : ℚ) := by exact_mod_cast hn
  have hmax : max (1/10 : ℚ) (n : ℚ) = (n : ℚ) := max_eq_right (le_trans (by norm_num) hn1)
  have hcast : ((d.ctl.vol : ℚ) + (n : ℚ)) = ((d.ctl.vol + (n : ℤ) : ℤ) : ℚ) := by
    push_cast
    ring
  have hmin : min 100 ((d.ctl.vol : ℚ) + (n : ℚ)) = ((d.ctl.vol + (n : ℤ) : ℤ) : ℚ) := by
    rw [← hcast]
    refine min_eq_right ?_
    rw [hcast]
    exact_mod_cast h100
  have h1 := send_sonos_command_up_cached env s d (n : ℚ) hd hr hw
  rw [hmax, hmin, pyRound_intCast] at h1
  have hctl := Dev.setVol_ctl d (d.ctl.vol + (n : ℤ))
  have hd1 : (send_sonos_command env "volume_up" (n : ℚ) s).2.sonosDevice =
      some (d.setVol (d.ctl.vol + (n : ℤ))) := by
    rw [h1]
  have h2 := send_sonos_command_down_cached env
    ((send_sonos_command env "volume_up" (n : ℚ) s).2)
    (d.setVol (d.ctl.vol + (n : ℤ))) (n : ℚ) hd1
    (by rw [hctl]; exact hr) (by rw [hctl]; exact hw)
  have e2 : max 0 ((((d.setVol (d.ctl.vol + (n : ℤ))).ctl.vol : ℚ)) - max (1/10) (n : ℚ)) =
      ((d.ctl.vol : ℤ) : ℚ) := by
    rw [hctl, hmax]
    have : ((({ d.ctl with vol := d.ctl.vol + (n : ℤ) }).vol : ℚ)) - (n : ℚ) =
        ((d.ctl.vol : ℤ) : ℚ) := by
      push_cast
      ring
    rw [this]
    exact max_eq_right (by exact_mod_cast h0)
  rw [e2, pyRound_intCast] at h2
  have hv : ((d.setVol (d.ctl.vol + (n : ℤ))).setVol d.ctl.vol).ctl.vol = d.ctl.vol := by
    rw [Dev.setVol_ctl]
  rw [h2]
  dsimp only [Option.map]
  rw [hv]

/-- Concrete device for the C7 amended witness: remote volume 50. -/
def devC7w : Dev := .mk "Sonos Five" true none { vol := 50 }

/-- Concrete state for the C7 amended witness. -/
def stC7w : SyncState := { sonosDevice := some devC7w }

/-- C7, witness for the amended theorem: up 2 then down 2 from volume 50
returns to 50. -/
theorem C7_witness :
    ((send_sonos_command envC7 "volume_down" ((2 : ℕ) : ℚ)
        (send_sonos_command envC7 "volume_up" ((2 : ℕ) : ℚ) stC7w).2).2.sonosDevice.map
      (fun x => x.ctl.vol)) = some 50 :=
  C7_roundtrip_integer_steps envC7 stC7w devC7w 2 rfl rfl rfl
    (by norm_num) (by decide) (by decide)

/-- C9: with a logical name configured (no fixed address) and a discovery
result available, get_sonos_device filters the discovered devices by
case-insensitive exact name match and selects the target as follows: no
match means resolution fails; if some matched device is itself a group
coordinator, the first such match is chosen; otherwise the group
coordinator of the first match is chosen, falling back to the first match itself when
resolving its group coordinator raises. -/
theorem C9_name_resolution_tiebreak (env : ResolutionEnv) (s : SyncState) (devs : List Dev)
    (hcache : s.sonosDevice = none) (hip : env.sonosIP = "") (hname : env.sonosName ≠ "")
    (hdisc : env.discovered = some devs) :
    (matchedDevs env.sonosName devs = [] → (get_sonos_device env s).1 = none) ∧
    (∀ c, (matchedDevs env.sonosName devs).find? (fun d => d.isCoord) = some c →
      (get_sonos_device env s).1 = some c) ∧
    ((matchedDevs env.sonosName devs).find? (fun d => d.isCoord) = none →
      ∀ first rest, matchedDevs env.sonosName devs = first :: rest →
        (get_sonos_device env s).1 = some (first.groupCoord.getD first)) := by
  unfold get_sonos_device
  rw [hcache]
  dsimp only
  rw [if_neg (fun h => h hip), if_pos hname, hdisc]
  dsimp only
  by_cases hde : devs.isEmpty = true
  · rw [if_pos hde]
    have hdevs : devs = [] := by
      cases devs with
      | nil => rfl
      | cons a as => cases hde
    subst hdevs
    refine ⟨fun _ => rfl, ?_, ?_⟩
    · intro c hc
      exact Option.noConfusion hc
    · intro hf first rest hm
      exact List.noConfusion hm
  · rw [if_neg hde]
    by_cases hme : (matchedDevs env.sonosName devs).isEmpty = true
    · rw [if_pos hme]
      have hm0 : matchedDevs env.sonosName devs = [] := by
        cases hml : matchedDevs env.sonosName devs with
        | nil => rfl
        | cons a as =>
          rw [hml] at hme
          cases hme
      refine ⟨fun _ => rfl, ?_, ?_⟩
      · intro c hc
        rw [hm0] at hc
        exact Option.noConfusion hc
      · intro hf first rest hm
        rw [hm0] at hm
        exact List.noConfusion hm
    · rw [if_neg hme]
      have hm0 : matchedDevs env.sonosName devs ≠ [] := by
        intro h
        rw [h] at hme
        exact hme rfl
      refine ⟨fun h => absurd h hm0, ?_, ?_⟩
      · intro c hc
        rw [hc]
      · intro hf first rest hm
        rw [hf]
        dsimp only
        rw [show (matchedDevs env.sonosName devs).head? = some first from by rw [hm]; rfl]

/-- Concrete coordinator device for the C9 witness. -/
def devC9c : Dev := .mk "Kitchen" true none { vol := 7 }

/-- Concrete non-coordinator matching device for the C9 witness, whose
group coordinator is devC9c. -/
def devC9a : Dev := .mk "sonos five" false (some devC9c) { vol := 5 }

/-- Concrete coordinator matching device for the C9 witness. -/
def devC9b : Dev := .mk "Sonos FIVE" true none { vol := 9 }

/-- Discovery environment for the C9 witness: both devices match the name
"Sonos Five" up to case, and the second is a coordinator. -/
def envC9 : ResolutionEnv := { sonosName := "Sonos Five", discovered := some [devC9a, devC9b] }

/-- Discovery environment for the C9 witness: only the non-coordinator
match is discovered. -/
def envC9b : ResolutionEnv := { sonosName := "Sonos Five", discovered := some [devC9a] }

/-- Concrete starting state for the C9 witness: no cached handle. -/
def stC9 : SyncState := {}

/-- C9, witness: with matches [devC9a (not coordinator), devC9b
(coordinator)] the coordinator devC9b is selected; with only the
non-coordinator match devC9a its group coordinator devC9c is selected. -/
theorem C9_witness :
    (get_sonos_device envC9 stC9).1 = some devC9b ∧
    (get_sonos_device envC9b stC9).1 = some devC9c := by
  have h1 := C9_name_resolution_tiebreak envC9 stC9 [devC9a, devC9b] rfl rfl
    (by decide) rfl
  have h2 := C9_name_resolution_tiebreak envC9b stC9 [devC9a] rfl rfl
    (by decide) rfl
  exact ⟨h1.2.1 devC9b rfl, h2.2.2 rfl devC9a [] rfl⟩

/-- The initial values of the two cached volume fractions are in range. -/
theorem volInv_initial : volInv { } := by
  refine ⟨by norm_num, by norm_num, le_refl 0, by norm_num⟩

/-- get_sonos_volume keeps the cached volume fractions in the unit
interval: it stores only clamped values. -/
theorem volInv_get_sonos_volume (env : ResolutionEnv) (s : SyncState) (hs : volInv s) :
    volInv (get_sonos_volume env s).2 := by
  obtain ⟨hf1, hf2, -, -, -, -, -, -⟩ := get_sonos_device_frame env s
  rcases get_sonos_volume_cases env s with h | ⟨v, hv0, hv1, -, h⟩ <;> rw [h]
  · exact ⟨by rw [hf1]; exact hs.1, by rw [hf1]; exact hs.2.1,
      by rw [hf2]; exact hs.2.2.1, by rw [hf2]; exact hs.2.2.2⟩
  · exact ⟨hv0, hv1, hv0, hv1⟩

/-- send_sonos_command keeps the cached volume fractions in the unit
interval, provided the device it resolves reports a volume in [0, 100]
(the documented device contract). -/
theorem volInv_send_sonos_command (env : ResolutionEnv) (service : String) (steps : ℚ)
    (s : SyncState) (hs : volInv s)
    (hdev : ∀ d, (get_sonos_device env s).1 = some d → 0 ≤ d.ctl.vol ∧ d.ctl.vol ≤ 100) :
    volInv (send_sonos_command env service steps s).2 := by
  obtain ⟨hf1, hf2, -, -, -, -, -, -⟩ := get_sonos_device_frame env s
  rcases send_sonos_command_cases env service steps s with h | ⟨d, q, hd, hq, h⟩ <;> rw [h]
  · exact ⟨by rw [hf1]; exact hs.1, by rw [hf1]; exact hs.2.1,
      by rw [hf2]; exact hs.2.2.1, by rw [hf2]; exact hs.2.2.2⟩
  · obtain ⟨hb0, hb100⟩ := hdev d hd
    have hb0q : (0 : ℚ) ≤ (d.ctl.vol : ℚ) := by exact_mod_cast hb0
    have hb100q : ((d.ctl.vol : ℚ)) ≤ 100 := by exact_mod_cast hb100
    have hstep : (1/10 : ℚ) ≤ max (1/10) steps := le_max_left _ _
    have hq0 : 0 ≤ q := by
      rcases hq with rfl | rfl
      · exact le_min (by norm_num) (by nlinarith)
      · exact le_max_left _ _
    have hq100 : q ≤ 100 := by
      rcases hq with rfl | rfl
      · exact min_le_left _ _
      · exact max_le (by norm_num) (by nlinarith)
    have h01 : 0 ≤ q / 100 := div_nonneg hq0 (by norm_num)
    have h02 : q / 100 ≤ 1 := by
      rw [div_le_one (by norm_num)]
      exact hq100
    exact ⟨h01, h02, h01, h02⟩

/-- handle_external_volume_change keeps the cached volume fractions in the
unit interval: it stores only values clamped to [0, 1]. -/
theorem volInv_handle_external (cfg : Config) (env : ResolutionEnv) (ok : Bool)
    (delta : ℤ) (s : SyncState) (hs : volInv s) :
    volInv (handle_external_volume_change cfg env ok delta s).1 := by
  unfold handle_external_volume_change
  by_cases h0 : delta = 0
  · rw [if_pos h0]
    exact hs
  · rw [if_neg h0]
    obtain ⟨v1, s1, hv⟩ : ∃ v1 s1, get_sonos_volume env s = (v1, s1) := ⟨_, _, rfl⟩
    rw [hv]
    have hs1 : volInv s1 := by
      have h := volInv_get_sonos_volume env s hs
      rw [hv] at h
      exact h
    dsimp only
    obtain ⟨o, s2, hg⟩ : ∃ o s2, get_sonos_device env s1 = (o, s2) := ⟨_, _, rfl⟩
    rw [hg]
    have hs2 : volInv s2 := by
      obtain ⟨hf1, hf2, -, -, -, -, -, -⟩ := get_sonos_device_frame env s1
      rw [hg] at hf1 hf2
      exact ⟨by rw [hf1]; exact hs1.1, by rw [hf1]; exact hs1.2.1,
        by rw [hf2]; exact hs1.2.2.1, by rw [hf2]; exact hs1.2.2.2⟩
    have hnv0 : (0 : ℚ) ≤ max 0 (min 1 (v1 + (delta : ℚ) / 100)) := le_max_left _ _
    have hnv1 : max 0 (min 1 (v1 + (delta : ℚ) / 100)) ≤ 1 :=
      max_le (by norm_num) (min_le_left _ _)
    cases o with
    | none =>
      dsimp only
      cases ok with
      | true => exact hs2
      | false => exact hs2
    | some d =>
      dsimp only
      by_cases hw : d.ctl.writeFails = true
      · rw [if_pos hw]
        cases ok with
        | true => exact hs2
        | false => exact hs2
      · rw [if_neg hw]
        cases ok with
        | true => exact ⟨hnv0, hnv1, hnv0, hnv1⟩
        | false => exact ⟨hnv0, hnv1, hnv0, hnv1⟩

/-- C10: the cached remote volume fraction pair (current_sonos_volume and
_last_volume_value) always lies in the unit interval: it starts in range
(0.1 and 0.0), and each of get_sonos_volume, send_sonos_command and
handle_external_volume_change preserves the invariant — the stored value
is clamped to [0, 1] or derived from a percent clamped to [0, 100]
(send_sonos_command additionally relying on the device contract that a
volume read returns a percent in [0, 100]). -/
theorem C10_cached_fraction_in_range (cfg : Config) (env : ResolutionEnv) (ok : Bool)
    (service : String) (steps : ℚ) (delta : ℤ) (s : SyncState)
    (hs : volInv s)
    (hdev : ∀ d, (get_sonos_device env s).1 = some d → 0 ≤ d.ctl.vol ∧ d.ctl.vol ≤ 100) :
    volInv { } ∧
    volInv (get_sonos_volume env s).2 ∧
    volInv (send_sonos_command env service steps s).2 ∧
    volInv (handle_external_volume_change cfg env ok delta s).1 :=
  ⟨volInv_initial, volInv_get_sonos_volume env s hs,
    volInv_send_sonos_command env service steps s hs hdev,
    volInv_handle_external cfg env ok delta s hs⟩

/-- Concrete device for the C10 witness: volume 50 percent. -/
def devC10 : Dev := .mk "Sonos Five" true none { vol := 50 }

/-- Concrete state for the C10 witness: devC10 cached. -/
def stC10 : SyncState := { sonosDevice := some devC10 }

/-- Concrete resolution environment for the C10 witness. -/
def envC10 : ResolutionEnv := {}

/-- C10, witness at a concrete in-range state with a cached device whose
volume is 50. -/
theorem C10_witness :
    volInv { } ∧
    volInv (get_sonos_volume envC10 stC10).2 ∧
    volInv (send_sonos_command envC10 "volume_up" 2 stC10).2 ∧
    volInv (handle_external_volume_change { } envC10 true 7 stC10).1 := by
  refine C10_cached_fraction_in_range { } envC10 true "volume_up" 2 7 stC10
    ⟨by norm_num [stC10], by norm_num [stC10], le_refl 0, by norm_num [stC10]⟩ ?_
  intro d hd
  rw [get_sonos_device_cached envC10 stC10 devC10 rfl] at hd
  obtain rfl : devC10 = d := by
    injection hd
  exact ⟨by decide, by decide⟩

end SonosVolumeSync
